import Mathlib

/-!
Shallow embedding of `src/main.py` (PymongoSimpleAgenda), a console agenda
backed by a MongoDB collection.  The collection `db_contacts` is modelled as a
`List Contact` in natural (insertion) order; `find_one`/`update_one`/
`delete_one` act on the first document matching the filter, as pymongo does
for an unsorted query.  Console input is modelled as a list of the lines the
user types; a flow that would block forever reading input (or exhaust any
finite input) is modelled by returning `none`.
-/

namespace Agenda

/-- A document of the `contacts` collection.  The five keys are `_id`,
`name`, `age`, `phone`, `email` (main.py lines 12-17, 46-54). -/
structure Contact where
  _id : Int
  name : String
  age : Int
  phone : String
  email : String
deriving DecidableEq, Repr

/-- Python's `str.lower()` (ASCII range), acting characterwise on the
string's character list. -/
def pyLower (s : String) : String :=
  ⟨s.data.map Char.toLower⟩

/-- Python's `str.isspace` set for the ASCII range: the characters
`str.strip()` removes. -/
def pySpace (c : Char) : Bool :=
  c = ' ' ∨ c = '\t' ∨ c = '\n' ∨ c = '\x0b' ∨ c = '\x0c' ∨ c = '\r'

/-- Python's `str.strip()`: drop whitespace from both ends. -/
def pyStrip (s : String) : String :=
  ⟨((s.data.dropWhile pySpace).reverse.dropWhile pySpace).reverse⟩

/-- Well-formedness of the digit part of a Python integer literal after the
first character: each remaining character is a digit, and an underscore may
only appear between two digits (`int("1_0")` parses, `int("1__0")`,
`int("1_")` do not). -/
def validTail : List Char → Bool
  | [] => true
  | '_' :: [] => false
  | '_' :: ch :: rest => ch.isDigit && validTail rest
  | ch :: rest => ch.isDigit && validTail rest

/-- The whole digit part: non-empty, starts with a digit, then `validTail`. -/
def validDigits : List Char → Bool
  | [] => false
  | ch :: rest => ch.isDigit && validTail rest

/-- Numeric value of a digit part, skipping the underscores. -/
def digitsVal (chars : List Char) : Nat :=
  chars.foldl (fun acc ch => if ch = '_' then acc else acc * 10 + (ch.toNat - 48)) 0

/-- Model of Python's `int(s)` on a string: surrounding whitespace is
stripped, an optional sign is allowed, then a non-empty run of decimal digits
(with underscore grouping); anything else raises `ValueError`, modelled as
`none`. -/
def pyInt (s : String) : Option Int :=
  match (pyStrip s).data with
  | '+' :: rest => if validDigits rest then some (Int.ofNat (digitsVal rest)) else none
  | '-' :: rest => if validDigits rest then some (-(Int.ofNat (digitsVal rest))) else none
  | rest => if validDigits rest then some (Int.ofNat (digitsVal rest)) else none

/-- The `while True: try: int(input(...)) break except ValueError: print(...)`
pattern (main.py lines 27-32, 36-41, and the menu-option read at lines
199-203): keep prompting until a line parses as an integer, reporting and
re-prompting on each `ValueError`.  Returns the parsed integer and the
unconsumed input lines, or `none` if the input ends first. -/
def readInt : List String → Option (Int × List String)
  | [] => none
  | x :: xs =>
    match pyInt x with
    | some n => some (n, xs)
    | none => readInt xs

/-- `db_contacts.insert_one` with the unique index on `_id`: if a document
with the same `_id` exists the insert raises `DuplicateKeyError` (modelled as
`Except.error`) and the collection is unchanged; otherwise the document is
appended. -/
def insert_one (store : List Contact) (c : Contact) : Except Unit (List Contact) :=
  if store.any (fun d => d._id = c._id) then Except.error () else Except.ok (store ++ [c])

/-- `db_contacts.find_one (namefilter)`: first document whose `name` equals the
key, in natural order. -/
def find_one (store : List Contact) (name : String) : Option Contact :=
  store.find? (fun c => c.name = name)

/-- `db_contacts.count_documents (emptyfilter)`: number of documents. -/
def count_documents (store : List Contact) : Nat :=
  store.length

/-- A value passed to a `$set` update: the update flow sends an `int` for the
`age` field and a string for every other field (main.py lines 138-148). -/
inductive Value where
  | str : String → Value
  | int : Int → Value
deriving DecidableEq, Repr

/-- `$set` of one field of one document.  Only the four updatable keys occur
in the flow (the field-selection loop admits nothing else); on any other
key/value combination the document is returned unchanged. -/
def set_field (c : Contact) (field : String) (v : Value) : Contact :=
  match field, v with
  | "name", Value.str s => { c with name := s }
  | "age", Value.int n => { c with age := n }
  | "phone", Value.str s => { c with phone := s }
  | "email", Value.str s => { c with email := s }
  | _, _ => c

/-- `db_contacts.update_one (idfilter, setfield)`: `$set` one field of the
first document whose `_id` matches (main.py line 148). -/
def update_one (store : List Contact) (id : Int) (field : String) (v : Value) : List Contact :=
  match store with
  | [] => []
  | c :: cs => if c._id = id then set_field c field v :: cs else c :: update_one cs id field v

/-- `db_contacts.delete_one (idfilter)`: remove the first document whose
`_id` matches (main.py line 177). -/
def delete_one (store : List Contact) (id : Int) : List Contact :=
  match store with
  | [] => []
  | c :: cs => if c._id = id then cs else c :: delete_one cs id

/-- `create_contact` (main.py lines 19-65).  Prompts, in order: id (integer,
re-prompt on `ValueError`), name (lower-cased), age (integer, re-prompt),
phone (lower-cased), email (lower-cased); then `insert_one`.  A
`DuplicateKeyError` is caught and reported.  Returns the resulting
collection together with the outcome message printed for the insert, or
`none` if the input lines run out before the flow completes. -/
def create_contact (inputs : List String) (store : List Contact) :
    Option (List Contact × String) :=
  match readInt inputs with
  | none => none
  | some (i, rest₁) =>
    match rest₁ with
    | [] => none
    | nameIn :: rest₂ =>
      let name := pyLower nameIn
      match readInt rest₂ with
      | none => none
      | some (age, rest₃) =>
        match rest₃ with
        | phoneIn :: emailIn :: _ =>
          let phone := pyLower phoneIn
          let email := pyLower emailIn
          match insert_one store ⟨i, name, age, phone, email⟩ with
          | Except.ok store' =>
            some (store', "Successfully created with id: " ++ toString i)
          | Except.error _ =>
            some (store, "The id " ++ toString i ++ " already exists, please enter an unique ID.")
        | _ => none

/-- `search_one` (main.py lines 75-86): the name the user types is
lower-cased, then used as the `find_one` key; the found contact (if any) is
printed. -/
def search_one (nameInput : String) (store : List Contact) : Option Contact :=
  find_one store (pyLower nameInput)

/-- What `show_all` prints: either the "No data found." message or the
sequence of contacts the cursor yields. -/
inductive ShowAllResult where
  | noData : ShowAllResult
  | records : List Contact → ShowAllResult
deriving DecidableEq, Repr

/-- `show_all` (main.py lines 88-103): when `count_documents` is zero it
prints "No data found." and returns without iterating; otherwise it drains
the `find()` cursor, printing every document. -/
def show_all (store : List Contact) : ShowAllResult :=
  if count_documents store = 0 then ShowAllResult.noData else ShowAllResult.records store

/-- The alias rewriting of main.py lines 126-130: `"phone number"` becomes
the `phone` key and `"e-mail"` the `email` key. -/
def resolveAlias (field : String) : String :=
  let field := if field = "phone number" then "phone" else field
  if field = "e-mail" then "email" else field

/-- The membership test of main.py line 132: `field` is one of the four
updatable keys. -/
def isUpdatable (field : String) : Bool :=
  field = "name" ∨ field = "age" ∨ field = "phone" ∨ field = "email"

/-- The field-selection loop of `update` (main.py lines 120-136): each
candidate line is lower-cased and stripped; `"id"` is rejected with a message
and the loop continues; the aliases are rewritten by `resolveAlias`; anything
not updatable is rejected and the loop continues.  Returns the chosen field
and the unconsumed lines, or `none` if the input ends first. -/
def selectField : List String → Option (String × List String)
  | [] => none
  | x :: xs =>
    if pyStrip (pyLower x) = "id" then selectField xs
    else if isUpdatable (resolveAlias (pyStrip (pyLower x))) then
      some (resolveAlias (pyStrip (pyLower x)), xs)
    else selectField xs

/-- The value-entry loop of `update` (main.py lines 138-146), translated
as written: each line is lower-cased; when the field is `age` the loop
breaks as soon as a line parses as an integer, re-prompting on
`ValueError`; for every other field the loop body contains no `break`, so
the loop reads another line forever — on finite input it consumes every
line and never produces a value. -/
def readValue (field : String) : List String → Option (Value × List String)
  | [] => none
  | x :: xs =>
    let value := pyLower x
    if field = "age" then
      match pyInt value with
      | some n => some (Value.int n, xs)
      | none => readValue field xs
    else
      readValue field xs

/-- `update` (main.py lines 105-160): lower-case the typed name, `find_one`
by it; if nothing is found, report and return (collection unchanged);
otherwise print the contact, run the field-selection loop, the value-entry
loop, and `update_one` filtered by the found contact's `_id`. -/
def update (inputs : List String) (store : List Contact) : Option (List Contact) :=
  match inputs with
  | [] => none
  | nameIn :: rest =>
    let name := pyLower nameIn
    match find_one store name with
    | none => some store
    | some contact =>
      match selectField rest with
      | none => none
      | some (field, rest₂) =>
        match readValue field rest₂ with
        | none => none
        | some (v, _) => some (update_one store contact._id field v)

/-- `delete` (main.py lines 162-178): the typed name is used as the
`find_one` key **without** lower-casing (line 164 has no `.lower()`); if
nothing is found, report and return; otherwise print the contact and, when
the lower-cased confirmation answer is `"y"` or `"yes"`, `delete_one`
filtered by the found contact's `_id`; on any other answer the collection
is untouched. -/
def delete (nameInput confirmInput : String) (store : List Contact) : List Contact :=
  match find_one store nameInput with
  | none => store
  | some contact =>
    if pyLower confirmInput = "y" ∨ pyLower confirmInput = "yes" then
      delete_one store contact._id
    else store

/-! ### Helper lemmas -/

/-- The value-entry loop contains no `break` outside the `age` branch, so
for every other field it consumes the whole (finite) input and yields
nothing. -/
theorem readValue_eq_none_of_ne_age (field : String) (h : field ≠ "age") :
    ∀ inputs : List String, readValue field inputs = none := by
  intro inputs
  induction inputs with
  | nil => rfl
  | cons x xs ih => simp [readValue, h, ih]

/-- A document whose `_id` differs from the update filter is still present
after `update_one`. -/
theorem mem_update_one_of_ne (store : List Contact) (id : Int) (f : String) (v : Value)
    (d : Contact) (hd : d ∈ store) (hne : d._id ≠ id) :
    d ∈ update_one store id f v := by
  induction store with
  | nil => cases hd
  | cons c cs ih =>
    rcases List.mem_cons.mp hd with rfl | hmem
    · simp only [update_one]
      rw [if_neg hne]
      exact List.mem_cons_self _ _
    · by_cases hc : c._id = id
      · simp only [update_one, if_pos hc]
        exact List.mem_cons_of_mem _ hmem
      · simp only [update_one, if_neg hc]
        exact List.mem_cons_of_mem _ (ih hmem)

/-- A document whose `_id` differs from the delete filter is still present
after `delete_one`. -/
theorem mem_delete_one_of_ne (store : List Contact) (id : Int)
    (d : Contact) (hd : d ∈ store) (hne : d._id ≠ id) :
    d ∈ delete_one store id := by
  induction store with
  | nil => cases hd
  | cons c cs ih =>
    rcases List.mem_cons.mp hd with rfl | hmem
    · simp only [delete_one]
      rw [if_neg hne]
      exact List.mem_cons_self _ _
    · by_cases hc : c._id = id
      · simp only [delete_one, if_pos hc]
        exact hmem
      · simp only [delete_one, if_neg hc]
        exact List.mem_cons_of_mem _ (ih hmem)

/-- `$set` of one field never touches `_id` and leaves every non-targeted
field untouched. -/
theorem set_field_frame (c : Contact) (f : String) (v : Value) :
    (set_field c f v)._id = c._id ∧
    (f ≠ "name" → (set_field c f v).name = c.name) ∧
    (f ≠ "age" → (set_field c f v).age = c.age) ∧
    (f ≠ "phone" → (set_field c f v).phone = c.phone) ∧
    (f ≠ "email" → (set_field c f v).email = c.email) := by
  unfold set_field
  split <;> simp_all

/-- `update_one` does not change the number of documents. -/
theorem update_one_length (store : List Contact) (id : Int) (f : String) (v : Value) :
    (update_one store id f v).length = store.length := by
  induction store with
  | nil => rfl
  | cons c cs ih =>
    by_cases hc : c._id = id
    · simp [update_one, if_pos hc]
    · simp [update_one, if_neg hc, ih]

/-- `update_one` preserves the `_id` of every document. -/
theorem update_one_map_id (store : List Contact) (id : Int) (f : String) (v : Value) :
    (update_one store id f v).map (fun d => d._id) = store.map (fun d => d._id) := by
  induction store with
  | nil => rfl
  | cons c cs ih =>
    by_cases hc : c._id = id
    · simp [update_one, if_pos hc, (set_field_frame c f v).1]
    · simp [update_one, if_neg hc, ih]

/-- When the ids in the collection are distinct, `update_one` keyed by the
id of a member document puts the updated document in the result. -/
theorem set_field_mem_update_one (store : List Contact) (c : Contact) (f : String) (v : Value)
    (hc : c ∈ store) (hnodup : (store.map (fun d => d._id)).Nodup) :
    set_field c f v ∈ update_one store c._id f v := by
  induction store with
  | nil => cases hc
  | cons e es ih =>
    rw [List.map_cons, List.nodup_cons] at hnodup
    rcases List.mem_cons.mp hc with rfl | hmem
    · simp only [update_one, if_pos rfl]
      exact List.mem_cons_self _ _
    · by_cases he : e._id = c._id
      · exact absurd (he ▸ List.mem_map.mpr ⟨c, hmem, rfl⟩) hnodup.1
      · simp only [update_one, if_neg he]
        exact List.mem_cons_of_mem _ (ih hmem hnodup.2)

/-- When the ids in the collection are distinct, `delete_one` keyed by the
id of a member document removes that document from the result. -/
theorem not_mem_delete_one (store : List Contact) (c : Contact)
    (hc : c ∈ store) (hnodup : (store.map (fun d => d._id)).Nodup) :
    c ∉ delete_one store c._id := by
  induction store with
  | nil => cases hc
  | cons e es ih =>
    rw [List.map_cons, List.nodup_cons] at hnodup
    by_cases he : e._id = c._id
    · simp only [delete_one, if_pos he]
      intro hmem
      exact hnodup.1 (he ▸ List.mem_map.mpr ⟨c, hmem, rfl⟩)
    · have hce : c ≠ e := fun h => he (h ▸ rfl)
      have hmem : c ∈ es := by
        rcases List.mem_cons.mp hc with rfl | h
        · exact absurd rfl hce
        · exact h
      simp only [delete_one, if_neg he]
      intro habs
      rcases List.mem_cons.mp habs with rfl | h
      · exact hce rfl
      · exact ih hmem hnodup.2 h

/-- A field accepted by the field-selection loop is one of the four
updatable keys. -/
theorem selectField_updatable (xs : List String) (f : String) (rest : List String)
    (h : selectField xs = some (f, rest)) :
    f = "name" ∨ f = "age" ∨ f = "phone" ∨ f = "email" := by
  induction xs with
  | nil => cases h
  | cons x xs ih =>
    simp only [selectField] at h
    split_ifs at h with h1 h2
    · exact ih h
    · simp only [Option.some.injEq, Prod.mk.injEq] at h
      obtain ⟨rfl, rfl⟩ := h
      simpa [isUpdatable] using h2
    · exact ih h

/-- When the looked-up name is absent, `update` reports not-found and
returns with the collection unchanged. -/
theorem update_notfound (nameIn : String) (inputs : List String) (store : List Contact)
    (hfind : find_one store (pyLower nameIn) = none) :
    update (nameIn :: inputs) store = some store := by
  simp [update, hfind]

/-- When the looked-up name is present, a completed `update` is an
`update_one` filtered by the `_id` of the found contact, on a field accepted
by the selection loop. -/
theorem update_found (nameIn : String) (inputs : List String) (store store' : List Contact)
    (c : Contact) (hfind : find_one store (pyLower nameIn) = some c)
    (hupd : update (nameIn :: inputs) store = some store') :
    ∃ (field : String) (v : Value) (rest₂ : List String),
      selectField inputs = some (field, rest₂) ∧
      store' = update_one store c._id field v := by
  simp only [update, hfind] at hupd
  split at hupd
  · cases hupd
  · rename_i field rest₂ hs
    split at hupd
    · cases hupd
    · rename_i v rest₃ hv
      exact ⟨field, v, rest₂, hs, (Option.some.inj hupd).symm⟩

/-- A completed `update` never changes the `_id` of any document. -/
theorem update_map_id (nameIn : String) (inputs : List String) (store store' : List Contact)
    (hupd : update (nameIn :: inputs) store = some store') :
    store'.map (fun d => d._id) = store.map (fun d => d._id) := by
  cases hfind : find_one store (pyLower nameIn) with
  | none =>
    rw [update_notfound nameIn inputs store hfind] at hupd
    cases hupd
    rfl
  | some c =>
    obtain ⟨field, v, rest₂, -, rfl⟩ := update_found nameIn inputs store store' c hfind hupd
    exact update_one_map_id store c._id field v

/-! ### Claims -/

/-- C1: the claim says that updating any field other than `age` completes
the value-entry step and stores the lower-cased string.  The code does not:
the only `break` of the value-entry loop (main.py lines 138-146) sits inside
the `age` branch, so for `name`, `phone` and `email` the loop re-reads input
forever; on any finite input the loop consumes every line and no value ever
reaches the store.  Concretely, updating the name of an existing contact
never calls `update_one`. -/
theorem update_nonage_value_loop_never_completes :
    (∀ inputs : List String,
      readValue "name" inputs = none ∧
      readValue "phone" inputs = none ∧
      readValue "email" inputs = none) ∧
    update ["bob", "name", "robert"] [⟨1, "bob", 30, "555", "bob@x.com"⟩] = none := by
  constructor
  · intro inputs
    exact ⟨readValue_eq_none_of_ne_age _ (by decide) inputs,
      readValue_eq_none_of_ne_age _ (by decide) inputs,
      readValue_eq_none_of_ne_age _ (by decide) inputs⟩
  · rfl

/-- C2 counterexample: the claim allows the found record to differ from the
typed input only in the lower-casing of `name` and `email`, but
`create_contact` lower-cases the phone as well (main.py line 42).  Typing
phone `"555-CALL"` stores and returns `"555-call"`. -/
theorem insert_then_find_phone_also_lowercased :
    create_contact ["1", "Ana", "30", "555-CALL", "Ana@X.com"] [] =
      some ([⟨1, "ana", 30, "555-call", "ana@x.com"⟩], "Successfully created with id: 1") ∧
    search_one "Ana" [⟨1, "ana", 30, "555-call", "ana@x.com"⟩] =
      some ⟨1, "ana", 30, "555-call", "ana@x.com"⟩ ∧
    "555-call" ≠ "555-CALL" := by
  refine ⟨rfl, rfl, by decide⟩

/-- C2 (amended): inserting a valid contact with a fresh id and a name not
already in the store, then searching by that name (in any casing), returns a
record equal in all five fields to the one inserted, the only differences
from the typed input being the lower-casing of the `name`, `phone` and
`email` fields. -/
theorem create_then_search_roundtrip
    (store : List Contact) (idIn nameIn ageIn phoneIn emailIn : String) (i a : Int)
    (hid : pyInt idIn = some i) (hage : pyInt ageIn = some a)
    (hfresh : store.any (fun d => d._id = i) = false)
    (hname : find_one store (pyLower nameIn) = none) :
    create_contact [idIn, nameIn, ageIn, phoneIn, emailIn] store =
      some (store ++ [⟨i, pyLower nameIn, a, pyLower phoneIn, pyLower emailIn⟩],
        "Successfully created with id: " ++ toString i) ∧
    search_one nameIn
        (store ++ [⟨i, pyLower nameIn, a, pyLower phoneIn, pyLower emailIn⟩]) =
      some ⟨i, pyLower nameIn, a, pyLower phoneIn, pyLower emailIn⟩ := by
  constructor
  · simp [create_contact, readInt, hid, hage, insert_one, hfresh]
  · unfold search_one find_one at *
    rw [List.find?_append, hname]
    simp

/-- C3: the claim says all three name-lookup flows lower-case the typed name
before lookup.  `search_one` (line 77) and `update` (line 107) do, but
`delete` (line 164) passes the typed name to `find_one` verbatim: since
names are stored lower-cased, a contact stored as `"alice"` is found by
search and update when the user types `"Alice"`, yet the delete flow
reports not-found and leaves the store unchanged; the same delete succeeds
only when the user types the name already lower-cased. -/
theorem delete_lookup_not_lowercased :
    search_one "Alice" [⟨1, "alice", 30, "555", "a@x.com"⟩] =
      some ⟨1, "alice", 30, "555", "a@x.com"⟩ ∧
    update ["Alice", "age", "31"] [⟨1, "alice", 30, "555", "a@x.com"⟩] =
      some [⟨1, "alice", 31, "555", "a@x.com"⟩] ∧
    find_one [⟨1, "alice", 30, "555", "a@x.com"⟩] "Alice" = none ∧
    delete "Alice" "y" [⟨1, "alice", 30, "555", "a@x.com"⟩] =
      [⟨1, "alice", 30, "555", "a@x.com"⟩] ∧
    delete "alice" "y" [⟨1, "alice", 30, "555", "a@x.com"⟩] = [] := by
  refine ⟨rfl, rfl, rfl, rfl, rfl⟩

/-- Witness for the amended C2 roundtrip at a concrete contact. -/
theorem create_then_search_roundtrip_witness :
    create_contact ["1", "Ana", "30", "555-CALL", "Ana@X.com"] [] =
      some ([] ++ [⟨1, pyLower "Ana", 30, pyLower "555-CALL", pyLower "Ana@X.com"⟩],
        "Successfully created with id: " ++ toString (1 : Int)) ∧
    search_one "Ana"
        ([] ++ [⟨1, pyLower "Ana", 30, pyLower "555-CALL", pyLower "Ana@X.com"⟩]) =
      some ⟨1, pyLower "Ana", 30, pyLower "555-CALL", pyLower "Ana@X.com"⟩ :=
  create_then_search_roundtrip [] "1" "Ana" "30" "555-CALL" "Ana@X.com" 1 30 rfl rfl rfl rfl

/-- C4: inserting a contact whose id already exists raises the duplicate-key
condition, which `create_contact` catches and reports to the user; the
create flow aborts and the collection is returned exactly as it was, still
holding only the first record with that id. -/
theorem duplicate_insert_reported_and_aborted
    (store : List Contact) (idIn nameIn ageIn phoneIn emailIn : String) (i a : Int)
    (hid : pyInt idIn = some i) (hage : pyInt ageIn = some a)
    (hdup : store.any (fun d => d._id = i) = true) :
    create_contact [idIn, nameIn, ageIn, phoneIn, emailIn] store =
      some (store, "The id " ++ toString i ++ " already exists, please enter an unique ID.") := by
  simp [create_contact, readInt, hid, hage, insert_one, hdup]

/-- Witness for C4 at a concrete duplicate id. -/
theorem duplicate_insert_reported_and_aborted_witness :
    create_contact ["1", "Bob", "30", "555", "b@x.com"] [⟨1, "ana", 20, "1", "a@x.com"⟩] =
      some ([⟨1, "ana", 20, "1", "a@x.com"⟩],
        "The id " ++ toString (1 : Int) ++ " already exists, please enter an unique ID.") :=
  duplicate_insert_reported_and_aborted [⟨1, "ana", 20, "1", "a@x.com"⟩]
    "1" "Bob" "30" "555" "b@x.com" 1 30 rfl rfl rfl

/-- C5: when the store's ids are distinct, updating a single field of an
existing contact changes only that field: the record count is unchanged,
every other record is still present, the updated record is present, it keeps
its id, and each non-targeted field keeps its pre-update value. -/
theorem update_single_field_frame
    (store : List Contact) (c d : Contact) (f : String) (v : Value)
    (hc : c ∈ store) (hnodup : (store.map (fun x => x._id)).Nodup)
    (hd : d ∈ store) (hne : d._id ≠ c._id) :
    (update_one store c._id f v).length = store.length ∧
    d ∈ update_one store c._id f v ∧
    set_field c f v ∈ update_one store c._id f v ∧
    (set_field c f v)._id = c._id ∧
    (f ≠ "name" → (set_field c f v).name = c.name) ∧
    (f ≠ "age" → (set_field c f v).age = c.age) ∧
    (f ≠ "phone" → (set_field c f v).phone = c.phone) ∧
    (f ≠ "email" → (set_field c f v).email = c.email) :=
  ⟨update_one_length store c._id f v,
    mem_update_one_of_ne store c._id f v d hd hne,
    set_field_mem_update_one store c f v hc hnodup,
    (set_field_frame c f v).1, (set_field_frame c f v).2.1,
    (set_field_frame c f v).2.2.1, (set_field_frame c f v).2.2.2.1,
    (set_field_frame c f v).2.2.2.2⟩

/-- Witness for C5: setting the age of the first of two contacts. -/
theorem update_single_field_frame_witness :
    (update_one [⟨1, "bob", 30, "555", "b@x.com"⟩, ⟨2, "ann", 20, "111", "a@x.com"⟩]
        1 "age" (Value.int 31)).length = 2 ∧
    ⟨2, "ann", 20, "111", "a@x.com"⟩ ∈
      update_one [⟨1, "bob", 30, "555", "b@x.com"⟩, ⟨2, "ann", 20, "111", "a@x.com"⟩]
        1 "age" (Value.int 31) ∧
    set_field ⟨1, "bob", 30, "555", "b@x.com"⟩ "age" (Value.int 31) ∈
      update_one [⟨1, "bob", 30, "555", "b@x.com"⟩, ⟨2, "ann", 20, "111", "a@x.com"⟩]
        1 "age" (Value.int 31) ∧
    (set_field ⟨1, "bob", 30, "555", "b@x.com"⟩ "age" (Value.int 31))._id = 1 ∧
    (set_field ⟨1, "bob", 30, "555", "b@x.com"⟩ "age" (Value.int 31)).name = "bob" ∧
    (set_field ⟨1, "bob", 30, "555", "b@x.com"⟩ "age" (Value.int 31)).phone = "555" ∧
    (set_field ⟨1, "bob", 30, "555", "b@x.com"⟩ "age" (Value.int 31)).email = "b@x.com" := by
  have h := update_single_field_frame
    [⟨1, "bob", 30, "555", "b@x.com"⟩, ⟨2, "ann", 20, "111", "a@x.com"⟩]
    ⟨1, "bob", 30, "555", "b@x.com"⟩ ⟨2, "ann", 20, "111", "a@x.com"⟩
    "age" (Value.int 31) (by decide) (by decide) (by decide) (by decide)
  exact ⟨h.1, h.2.1, h.2.2.1, h.2.2.2.1, h.2.2.2.2.1 (by decide),
    h.2.2.2.2.2.2.1 (by decide), h.2.2.2.2.2.2.2 (by decide)⟩

/-- C6: the field-selection loop rejects `id` and re-prompts before any
store call (so selecting `id` consumes the line and nothing else happens);
any field it does accept is one of name/age/phone/email — never the id key —
and consequently a completed update leaves every document's `_id` exactly as
it was. -/
theorem update_never_targets_id
    (xs rest inputs : List String) (f nameIn : String) (store store' : List Contact)
    (hsel : selectField xs = some (f, rest))
    (hupd : update (nameIn :: inputs) store = some store') :
    selectField ("id" :: xs) = selectField xs ∧
    (f = "name" ∨ f = "age" ∨ f = "phone" ∨ f = "email") ∧
    f ≠ "id" ∧ f ≠ "_id" ∧
    store'.map (fun d => d._id) = store.map (fun d => d._id) := by
  have hmem := selectField_updatable xs f rest hsel
  refine ⟨rfl, hmem, ?_, ?_,
    update_map_id nameIn inputs store store' hupd⟩
  · rcases hmem with rfl | rfl | rfl | rfl <;> decide
  · rcases hmem with rfl | rfl | rfl | rfl <;> decide

/-- Witness for C6: choosing the name field after a rejected id attempt,
during an age update of an existing contact. -/
theorem update_never_targets_id_witness :
    selectField ["id", "name"] = selectField ["name"] ∧
    ("name" = "name" ∨ "name" = "age" ∨ "name" = "phone" ∨ "name" = "email") ∧
    "name" ≠ "id" ∧ "name" ≠ "_id" ∧
    (([⟨1, "bob", 31, "555", "b@x.com"⟩] : List Contact).map (fun d => d._id)) =
      (([⟨1, "bob", 30, "555", "b@x.com"⟩] : List Contact).map (fun d => d._id)) :=
  update_never_targets_id ["id", "name"] [] ["age", "31"] "name" "bob"
    [⟨1, "bob", 30, "555", "b@x.com"⟩] [⟨1, "bob", 31, "555", "b@x.com"⟩] rfl rfl

/-- C7: on an empty store `show_all` prints the "No data found." message and
yields no records; on a non-empty store it yields exactly the records of the
store (in store order, which the claim leaves unconstrained). -/
theorem show_all_empty_and_nonempty (store : List Contact) (hne : store ≠ []) :
    show_all [] = ShowAllResult.noData ∧
    show_all store = ShowAllResult.records store := by
  refine ⟨rfl, ?_⟩
  have h : count_documents store ≠ 0 := by
    simpa [count_documents, List.length_eq_zero] using hne
  simp [show_all, h]

/-- Witness for C7 at a one-record store. -/
theorem show_all_empty_and_nonempty_witness :
    show_all [] = ShowAllResult.noData ∧
    show_all [⟨1, "bob", 30, "555", "b@x.com"⟩] =
      ShowAllResult.records [⟨1, "bob", 30, "555", "b@x.com"⟩] :=
  show_all_empty_and_nonempty [⟨1, "bob", 30, "555", "b@x.com"⟩] (by decide)

/-- C8: a non-integer line typed where an integer is required is recovered
locally: the integer-reading loop reports and re-prompts, behaving exactly
as if the malformed line had not been typed (so it never aborts the flow,
and the malformed text never reaches the store), and the loop completes as
soon as a parseable integer is typed, returning its value.  The menu-option
read of `main` (lines 199-203) follows the same re-prompting pattern
modelled by `readInt`. -/
theorem nonint_input_recovered
    (bad good : String) (rest : List String) (store : List Contact) (v : Int)
    (hbad : pyInt bad = none) (hgood : pyInt good = some v) :
    readInt (bad :: rest) = readInt rest ∧
    readInt (good :: rest) = some (v, rest) ∧
    create_contact (bad :: rest) store = create_contact rest store := by
  have h1 : readInt (bad :: rest) = readInt rest := by simp [readInt, hbad]
  refine ⟨h1, by simp [readInt, hgood], ?_⟩
  simp only [create_contact, h1]

/-- Witness for C8: typing "thirty" where an id is expected. -/
theorem nonint_input_recovered_witness :
    readInt ["thirty", "3"] = readInt ["3"] ∧
    readInt ["42", "3"] = some (42, ["3"]) ∧
    create_contact ["thirty", "3"] [] = create_contact ["3"] [] :=
  nonint_input_recovered "thirty" "42" ["3"] [] 42 rfl rfl

/-- C9: the store mutation of the update and delete flows is filtered by
the `_id` of the record returned by the preceding find-by-name, not by the
name: with distinct ids, even when several records share the looked-up
name, every record whose id differs from the found one survives an update
and survives a confirmed delete, while a confirmed delete is exactly
`delete_one` keyed by the found record's id and does remove that record. -/
theorem mutation_targets_displayed_record
    (store store' : List Contact) (c cD d : Contact)
    (nameIn nameD confirm : String) (inputs : List String)
    (hnodup : (store.map (fun x => x._id)).Nodup)
    (hfindU : find_one store (pyLower nameIn) = some c)
    (hupd : update (nameIn :: inputs) store = some store')
    (hd : d ∈ store) (hneU : d._id ≠ c._id)
    (hfindD : find_one store nameD = some cD)
    (hconf : pyLower confirm = "y" ∨ pyLower confirm = "yes")
    (hneD : d._id ≠ cD._id) :
    d ∈ store' ∧
    delete nameD confirm store = delete_one store cD._id ∧
    d ∈ delete nameD confirm store ∧
    cD ∉ delete nameD confirm store := by
  obtain ⟨field, v, rest₂, -, rfl⟩ := update_found nameIn inputs store store' c hfindU hupd
  have hdel : delete nameD confirm store = delete_one store cD._id := by
    simp only [delete, hfindD]
    rw [if_pos hconf]
  refine ⟨mem_update_one_of_ne store c._id field v d hd hneU, hdel, ?_, ?_⟩
  · rw [hdel]
    exact mem_delete_one_of_ne store cD._id d hd hneD
  · rw [hdel]
    exact not_mem_delete_one store cD (List.mem_of_find?_eq_some hfindD) hnodup

/-- Witness for C9: two contacts both named "bob" with ids 1 and 2; the
flows find and target id 1, and id 2 survives both. -/
theorem mutation_targets_displayed_record_witness :
    ⟨2, "bob", 40, "666", "b2@x.com"⟩ ∈
      ([⟨1, "bob", 31, "555", "b1@x.com"⟩, ⟨2, "bob", 40, "666", "b2@x.com"⟩] : List Contact) ∧
    delete "bob" "YES" [⟨1, "bob", 30, "555", "b1@x.com"⟩, ⟨2, "bob", 40, "666", "b2@x.com"⟩] =
      delete_one [⟨1, "bob", 30, "555", "b1@x.com"⟩, ⟨2, "bob", 40, "666", "b2@x.com"⟩] 1 ∧
    ⟨2, "bob", 40, "666", "b2@x.com"⟩ ∈
      delete "bob" "YES" [⟨1, "bob", 30, "555", "b1@x.com"⟩, ⟨2, "bob", 40, "666", "b2@x.com"⟩] ∧
    ⟨1, "bob", 30, "555", "b1@x.com"⟩ ∉
      delete "bob" "YES" [⟨1, "bob", 30, "555", "b1@x.com"⟩, ⟨2, "bob", 40, "666", "b2@x.com"⟩] :=
  mutation_targets_displayed_record
    [⟨1, "bob", 30, "555", "b1@x.com"⟩, ⟨2, "bob", 40, "666", "b2@x.com"⟩]
    [⟨1, "bob", 31, "555", "b1@x.com"⟩, ⟨2, "bob", 40, "666", "b2@x.com"⟩]
    ⟨1, "bob", 30, "555", "b1@x.com"⟩ ⟨1, "bob", 30, "555", "b1@x.com"⟩
    ⟨2, "bob", 40, "666", "b2@x.com"⟩ "Bob" "bob" "YES" ["age", "31"]
    (by decide) rfl rfl (by decide) (by decide) rfl (Or.inr rfl) (by decide)

/-- C10: after the delete flow finds and displays a record, the deletion is
issued precisely when the lower-cased confirmation equals "y" or "yes"; on
any other confirmation the flow ends with the store unchanged. -/
theorem delete_confirmation_gate
    (store : List Contact) (c : Contact) (nameIn cy cn : String)
    (hfind : find_one store nameIn = some c)
    (hcy : pyLower cy = "y" ∨ pyLower cy = "yes")
    (hcn : ¬(pyLower cn = "y" ∨ pyLower cn = "yes")) :
    delete nameIn cy store = delete_one store c._id ∧
    delete nameIn cn store = store := by
  constructor
  · simp only [delete, hfind]
    rw [if_pos hcy]
  · simp only [delete, hfind]
    rw [if_neg hcn]

/-- Witness for C10: confirming with "Y" deletes, answering "no" leaves the
store untouched. -/
theorem delete_confirmation_gate_witness :
    delete "ann" "Y" [⟨1, "ann", 20, "111", "a@x.com"⟩] =
      delete_one [⟨1, "ann", 20, "111", "a@x.com"⟩] 1 ∧
    delete "ann" "no" [⟨1, "ann", 20, "111", "a@x.com"⟩] =
      [⟨1, "ann", 20, "111", "a@x.com"⟩] :=
  delete_confirmation_gate [⟨1, "ann", 20, "111", "a@x.com"⟩]
    ⟨1, "ann", 20, "111", "a@x.com"⟩ "ann" "Y" "no" rfl (Or.inl rfl) (by decide)

end Agenda
